import Mathlib

/-!
Verification of the HTTP client component of this repository.

The repository contains three parallel implementations of the same
client-side request abstraction:

* a fluent builder client (`ApiClient` in ApiClient.ts, fetch-based),
  together with the shared `ApiResponse` / `SuccessResponse` classes;
* a hook-based client (`useApiClient`, unnamed source file), which
  duplicates `ApiResponse`;
* an axios interceptor-based client (second class named `ApiClient`
  in ApiClient.ts) that wraps an axios instance and stores tokens in
  an external `UserDataController` (modelled here as `TokenStore`).

The definitions below are shallow embeddings of those sources.
JavaScript objects used as parameter maps are modelled as association
lists `List (String × String)` (object keys are unique; iteration
order is insertion order).  In-place mutation (`delete obj[key]`,
`this.url = ...`) is modelled by explicit state passing: the mapping
component returned by a function is the post-call state of the very
object the caller handed in.  `fetch`/axios transports, JSON parsing
and thrown exceptions are modelled by oracle arguments describing the
outcome of each external call.
-/

set_option autoImplicit false

/-- HTTP methods, from the `httpMethod` enum (both copies are identical). -/
inductive httpMethod where
  | get
  | post
  | put
  | patch
  | delete
deriving DecidableEq, BEq

/-- The comparison `method === httpMethod.get` used to decide between
query-string and body placement. -/
def httpMethod.isGet : httpMethod → Bool
  | httpMethod.get => true
  | _ => false

/-- The `ApiResponse` class (ApiClient.ts lines 9-24, duplicated in the
hook file lines 108-123): status, status text and an optional payload.
The fields are `readonly` in the source; the derived flags `isSuccess`
and `isTokenExpired` are assigned exactly once, in the constructor, as
functions of `status`, so they are embedded as derived functions. -/
structure ApiResponse (U : Type) where
  status : Int
  statusText : String
  data : Option U
deriving DecidableEq

/-- `this.isSuccess = status === 200 || status === 201 || status === 204`. -/
def ApiResponse.isSuccess {U : Type} (r : ApiResponse U) : Bool :=
  r.status == 200 || r.status == 201 || r.status == 204

/-- `this.isTokenExpired = status === 401`. -/
def ApiResponse.isTokenExpired {U : Type} (r : ApiResponse U) : Bool :=
  r.status == 401

/-- Number of times one call of `ApiResponse.onFail` invokes its callback
(ApiClient.ts lines 26-39): zero when `isTokenExpired`, one when the
response is not a success, zero otherwise. -/
def ApiResponse.onFailCalls {U : Type} (r : ApiResponse U) : Nat :=
  if r.isTokenExpired then 0
  else if !r.isSuccess then 1
  else 0

/-- Number of times one call of `ApiResponse.onSuccess` invokes its callback
(ApiClient.ts lines 41-56).  The guard is `this.isSuccess && this.data`,
i.e. JavaScript truthiness of the payload; `truthy` is the truthiness
predicate of the payload type (always true for objects, false for empty
strings, zero, etc.). -/
def ApiResponse.onSuccessCalls {U : Type} (truthy : U → Bool) (r : ApiResponse U) : Nat :=
  if r.isTokenExpired then 0
  else if r.isSuccess && ((r.data.map truthy).getD false) then 1
  else 0

/-- Number of times one call of `ApiResponse.onTokenExpired` invokes its
callback (ApiClient.ts lines 58-63). -/
def ApiResponse.onTokenExpiredCalls {U : Type} (r : ApiResponse U) : Nat :=
  if r.isTokenExpired then 1 else 0

/-- Helper: the two derived flags can never be true together, since no
status is both in \x7b200, 201, 204\x7d and equal to 401. -/
theorem ApiResponse.flags_exclusive {U : Type} (r : ApiResponse U) :
    ¬(r.isSuccess = true ∧ r.isTokenExpired = true) := by
  rintro ⟨hs, ht⟩
  simp only [ApiResponse.isSuccess, ApiResponse.isTokenExpired, Bool.or_eq_true,
    beq_iff_eq] at hs ht
  omega

/-- C2: for every `ApiResponse` constructed with any integer status, the
derived flags are pure functions of the status alone (independent of status
text and payload), `isSuccess` holds exactly for statuses 200, 201, 204,
`isTokenExpired` holds exactly for 401, and the two flags are never both
true.  The fields are `readonly` and assigned only in the constructor, so
the flags cannot change after construction (here they are functions of the
immutable `status`). -/
theorem c2_flags_pure_functions_of_status (U : Type) (s : Int)
    (t1 t2 : String) (d1 d2 : Option U) :
    (ApiResponse.mk s t1 d1).isSuccess = (ApiResponse.mk s t2 d2).isSuccess ∧
    (ApiResponse.mk s t1 d1).isTokenExpired = (ApiResponse.mk s t2 d2).isTokenExpired ∧
    ((ApiResponse.mk s t1 d1).isSuccess = true ↔ (s = 200 ∨ s = 201 ∨ s = 204)) ∧
    ((ApiResponse.mk s t1 d1).isTokenExpired = true ↔ s = 401) ∧
    ¬((ApiResponse.mk s t1 d1).isSuccess = true ∧
      (ApiResponse.mk s t1 d1).isTokenExpired = true) := by
  refine ⟨rfl, rfl, ?_, ?_, ApiResponse.flags_exclusive _⟩
  · simp [ApiResponse.isSuccess, or_assoc]
  · simp [ApiResponse.isTokenExpired]

/-- C6: on a token-expired response, `onFail` and `onSuccess` never invoke
their callbacks, `onTokenExpired` invokes its callback exactly once, and
each of the three hooks invokes its callback at most once on any response. -/
theorem c6_token_expired_suppresses_hooks (U : Type) (truthy : U → Bool)
    (r : ApiResponse U) :
    (r.isTokenExpired = true →
      r.onFailCalls = 0 ∧ r.onSuccessCalls truthy = 0 ∧ r.onTokenExpiredCalls = 1) ∧
    (r.onFailCalls ≤ 1 ∧ r.onSuccessCalls truthy ≤ 1 ∧ r.onTokenExpiredCalls ≤ 1) := by
  constructor
  · intro h
    simp [ApiResponse.onFailCalls, ApiResponse.onSuccessCalls,
      ApiResponse.onTokenExpiredCalls, h]
  · refine ⟨?_, ?_, ?_⟩ <;>
      simp only [ApiResponse.onFailCalls, ApiResponse.onSuccessCalls,
        ApiResponse.onTokenExpiredCalls] <;>
      split <;> simp <;> split <;> simp

/-- Witness for C6 at the concrete response 401 "Unauthorized" with no body. -/
theorem c6_token_expired_suppresses_hooks_witness :
    (ApiResponse.mk 401 "Unauthorized" (none : Option Unit)).onFailCalls = 0 ∧
    (ApiResponse.mk 401 "Unauthorized" (none : Option Unit)).onSuccessCalls (fun _ => true) = 0 ∧
    (ApiResponse.mk 401 "Unauthorized" (none : Option Unit)).onTokenExpiredCalls = 1 :=
  (c6_token_expired_suppresses_hooks Unit (fun _ => true)
    (ApiResponse.mk 401 "Unauthorized" none)).1 (by decide)

/-- C10: the `onSuccess` callback runs exactly when the response is a
success and the payload is present and truthy; in particular a 204 with no
body (or a falsy payload) never triggers the success callback. -/
theorem c10_onSuccess_requires_truthy_data (U : Type) (truthy : U → Bool)
    (r : ApiResponse U) :
    r.onSuccessCalls truthy = 1 ↔
      (r.isSuccess = true ∧ ∃ v, r.data = some v ∧ truthy v = true) := by
  unfold ApiResponse.onSuccessCalls
  by_cases hte : r.isTokenExpired = true
  · simp only [hte, if_true]
    constructor
    · intro h; exact absurd h (by simp)
    · rintro ⟨hs, -⟩; exact absurd ⟨hs, hte⟩ (ApiResponse.flags_exclusive r)
  · simp only [hte, if_false, Bool.not_eq_true] at *
    rw [if_neg (by simp [hte])]
    cases hd : r.data with
    | none => simp [hd]
    | some v =>
      by_cases hs : r.isSuccess = true <;> by_cases htv : truthy v = true <;>
        simp [hd, hs, htv]

/-- Parameter mappings: JavaScript objects with string keys, iterated in
insertion order (as by `Object.keys`). -/
abbrev Params := List (String × String)

/-- `pat.isContainedIn s`, mirroring JavaScript `s.includes(pat)` on the
character lists of the two strings. -/
def containsSeq (pat : List Char) : List Char → Bool
  | [] => List.isPrefixOf pat []
  | c :: cs => List.isPrefixOf pat (c :: cs) || containsSeq pat cs

/-- JavaScript `s.replace(pat, repl)` with a string pattern: replaces the
first occurrence of `pat` only. -/
def replaceFirstSeq (pat repl : List Char) : List Char → List Char
  | [] => []
  | c :: cs =>
      if List.isPrefixOf pat (c :: cs) then repl ++ (c :: cs).drop pat.length
      else c :: replaceFirstSeq pat repl cs

/-- `url.includes(pat)` on Lean strings. -/
def strIncludes (s pat : String) : Bool := containsSeq pat.toList s.toList

/-- `url.replace(pat, repl)` (first occurrence) on Lean strings. -/
def strReplaceFirst (s pat repl : String) : String :=
  (replaceFirstSeq pat.toList repl.toList s.toList).asString

/-- The placeholder token for a key, i.e. the template literal
backtick-\x7b-key-\x7d used in all three `setUrlParams` variants. -/
def strTok (k : String) : String := "\x7b" ++ k ++ "\x7d"

/-- `delete obj[key]` on a parameter mapping (object keys are unique). -/
def eraseKey (ps : Params) (k : String) : Params :=
  ps.filter (fun kv => !(kv.1 == k))

/-- One iteration of the `Object.keys(...).forEach` loop shared by all
three `setUrlParams` variants (ApiClient.ts lines 202-212 and 246-255,
hook file lines 89-102): if the current URL contains the token
for this key, substitute its value for the first occurrence of the token
and delete the key from the mapping, else leave both unchanged. -/
def substStep (acc : String × Params) (kv : String × String) : String × Params :=
  if strIncludes acc.1 (strTok kv.1) then
    (strReplaceFirst acc.1 (strTok kv.1) kv.2, eraseKey acc.2 kv.1)
  else acc

/-- `setUrlParams`: iterate the substitution step over the keys of the
mapping, in insertion order, starting from the template URL and the
mapping itself.  The source mutates `this.url`/`this.data` (respectively
`config.url`/`config.data`, or the `url`/`params` locals aliasing the
constructor arguments in the axios variant) in place; the returned pair
is the post-call state of those two objects — in particular the second
component is the final state of the very mapping the caller supplied. -/
def setUrlParams (url : String) (data : Params) : String × Params :=
  data.foldl substStep (url, data)

/-- `URLSearchParams(data).toString()`, an external platform collaborator:
modelled as plain form-encoding `k=v` joined by ampersands (the claims do
not depend on percent-escaping). -/
def serializeQuery (ps : Params) : String :=
  String.intercalate "&" (ps.map (fun kv => kv.1 ++ "=" ++ kv.2))

/-- `setQueryParams` (ApiClient.ts lines 192-199, hook file lines
78-86): only for GET requests with a (still) present mapping, append
question mark plus the serialized mapping to the URL and clear the data
field (the fluent variant sets `this.data = undefined`; an empty object
still counts as present, since objects are truthy). -/
def setQueryParams (m : httpMethod) (url : String) (data : Option Params) :
    String × Option Params :=
  match data with
  | none => (url, none)
  | some d =>
      if m.isGet then (url ++ "?" ++ serializeQuery d, none)
      else (url, some d)

/-- The request line built by `ApiClient.send` (ApiClient.ts lines
126-136): run `setUrlParams` (a no-op when `this.data` is undefined),
then `setQueryParams`, then compute the body as
`method !== get && this.data ? JSON.stringify(this.data) : undefined`.
`JSON.stringify` is modelled by carrying the encoded mapping itself.
Returns the dispatched URL and the optional body. -/
def buildRequest (m : httpMethod) (url : String) (data : Option Params) :
    String × Option Params :=
  match data with
  | none =>
      let s := setQueryParams m url none
      (s.1, if m.isGet then none else s.2)
  | some d =>
      let r := setUrlParams url d
      let s := setQueryParams m r.1 (some r.2)
      (s.1, if m.isGet then none else s.2)

/-- The URL after path substitution alone (before query handling). -/
def substUrl (url : String) (data : Option Params) : String :=
  match data with
  | none => url
  | some d => (setUrlParams url d).1

/-- The parameter mapping remaining after path substitution alone. -/
def substData (url : String) (data : Option Params) : Option Params :=
  match data with
  | none => none
  | some d => some (setUrlParams url d).2

/-- Helper: the mapping component of the substitution fold is always a
sublist of the mapping component of the initial accumulator (keys are
only ever deleted, never added or altered). -/
theorem foldl_substStep_sublist :
    ∀ (l : List (String × String)) (acc : String × Params),
      (List.foldl substStep acc l).2.Sublist acc.2 := by
  intro l
  induction l with
  | nil => intro acc; exact List.Sublist.refl _
  | cons kv tl ih =>
      intro acc
      refine (ih (substStep acc kv)).trans ?_
      unfold substStep
      split
      · exact List.filter_sublist _
      · exact List.Sublist.refl _

/-- Helper: if no key of the iterated list has its token in the current
URL, the substitution fold leaves both the URL and the mapping unchanged. -/
theorem foldl_substStep_nomatch :
    ∀ (l : List (String × String)) (u : String) (d : Params),
      (∀ kv ∈ l, strIncludes u (strTok kv.1) = false) →
      List.foldl substStep (u, d) l = (u, d) := by
  intro l
  induction l with
  | nil => intro u d _; rfl
  | cons kv tl ih =>
      intro u d h
      have hkv : strIncludes u (strTok kv.1) = false := h kv (List.mem_cons_self _ _)
      have hstep : substStep (u, d) kv = (u, d) := by
        unfold substStep
        simp [hkv]
      rw [List.foldl_cons, hstep]
      exact ih u d (fun kv2 hm => h kv2 (List.mem_cons_of_mem _ hm))

/-- C3 counterexample: for the template "/users/\x7bid\x7d" with caller
mapping [("id", "42")], path substitution consumes the key and deletes it
from the caller's mapping (the source performs `delete this.data[key]` on
the object the caller supplied), so the mapping after the call differs
from the original — the claim that the caller's mapping is left unchanged
is false. -/
theorem c3_counterexample :
    (setUrlParams "/users/\x7bid\x7d" [("id", "42")]).2 ≠ [("id", "42")] := by
  decide

/-- C3 amended: path substitution operates on the caller's mapping in
place; keys whose placeholder token occurs in the URL are substituted and
deleted from that very mapping, so after the call the mapping is a
sublist of the original (entries are only removed, never added or
modified) — it is not in general unchanged, and no copy is made. -/
theorem c3_amended_params_sublist (url : String) (data : Params) :
    (setUrlParams url data).2.Sublist data :=
  foldl_substStep_sublist data (url, data)

/-- C9: when the URL template contains no placeholder token for any key of
the mapping, path substitution is the identity: the URL equals the
template, and the full original mapping is forwarded unchanged to
query-string or body construction. -/
theorem c9_subst_identity_on_nonmatching (url : String) (data : Params)
    (h : ∀ kv ∈ data, strIncludes url (strTok kv.1) = false) :
    setUrlParams url data = (url, data) :=
  foldl_substStep_nomatch data url data h

/-- Witness for C9 at the template "/orders" with mapping [("sku", "X1")]. -/
theorem c9_subst_identity_witness :
    setUrlParams "/orders" [("sku", "X1")] = ("/orders", [("sku", "X1")]) :=
  c9_subst_identity_on_nonmatching "/orders" [("sku", "X1")] (by decide)

/-- C8: for every template and mapping, a GET request carries no body and
appends all parameters remaining after substitution to the URL as a query
string, while every non-GET request leaves the substituted URL untouched
(no query string appended) and passes the remaining parameters as the
JSON-encoded body. -/
theorem c8_get_query_vs_body (url : String) (data : Option Params) :
    ((buildRequest httpMethod.get url data).2 = none ∧
     (buildRequest httpMethod.get url data).1 =
       (match substData url data with
        | none => substUrl url data
        | some ps => substUrl url data ++ "?" ++ serializeQuery ps)) ∧
    buildRequest httpMethod.post url data = (substUrl url data, substData url data) ∧
    buildRequest httpMethod.put url data = (substUrl url data, substData url data) ∧
    buildRequest httpMethod.patch url data = (substUrl url data, substData url data) ∧
    buildRequest httpMethod.delete url data = (substUrl url data, substData url data) := by
  cases data <;>
    simp [buildRequest, setQueryParams, substUrl, substData, httpMethod.isGet]

/-- JavaScript string truthiness: the empty string is falsy (used by the
`!newToken` / `!newTokenLong` guards). -/
def truthyStr (s : String) : Bool := !(s == "")

/-- Parsed body of the token-refresh endpoint: a JSON object that may or
may not carry the two token fields. -/
structure RefreshData where
  accessToken : Option String
  refreshToken : Option String
deriving DecidableEq

/-- Outcome of one `fetch` round trip inside the fluent `send` (ApiClient.ts
lines 140-141): either a response whose `json()` parses (some payload) or
throws (none), or the fetch itself throwing (network error). -/
inductive FetchOutcome (U : Type) where
  | ok (status : Int) (statusText : String) (json : Option U)
  | netErr
deriving DecidableEq

/-- Mutable token state of the fluent `ApiClient`: the `token` field and
the Authorization entry of the `headers` object. -/
structure FluentState where
  token : Option String
  authHeader : Option String
deriving DecidableEq

/-- `ApiClient.setToken` (ApiClient.ts lines 110-114): store the token and
set the bearer Authorization header. -/
def setToken (_st : FluentState) (t : String) : FluentState :=
  { token := some t, authHeader := some ("Bearer " ++ t) }

/-- The fluent `ApiClient.send` (ApiClient.ts lines 124-153).  The whole
body sits in one try/catch: URL/query preparation, interceptor invocation,
fetch and JSON parsing.  `interceptors` records, in order, whether each
registered interceptor throws when invoked; any throw — and likewise a
network error or a JSON parse error — lands in the catch branch, which
returns `ApiResponse(500, "Internal Server Error", undefined)`.  The
`Except` layer records whether an exception escapes the call: no branch
ever produces `Except.error`, because the catch swallows everything. -/
def sendFluent {U : Type} (interceptors : List Bool) (outcome : FetchOutcome U) :
    Except Unit (ApiResponse U) :=
  if interceptors.any (fun b => b) then
    Except.ok ⟨500, "Internal Server Error", none⟩
  else
    match outcome with
    | FetchOutcome.netErr => Except.ok ⟨500, "Internal Server Error", none⟩
    | FetchOutcome.ok _ _ none => Except.ok ⟨500, "Internal Server Error", none⟩
    | FetchOutcome.ok s t (some j) => Except.ok ⟨s, t, some j⟩

/-- The fluent `ApiClient.refreshAccessToken` (ApiClient.ts lines 173-189):
send a POST through a fresh client (whose result is the oracle `rr`), then
assign `this.token = response.data?.accessToken` — note this happens
unconditionally, before any success check — and return the pair
`\x7bisSuccess, newToken: response.data?.accessToken\x7d`.
The Authorization header is not touched here. -/
def refreshAccessTokenFluent (st : FluentState) (rr : ApiResponse RefreshData) :
    FluentState × Bool × Option String :=
  ({ st with token := rr.data.bind RefreshData.accessToken },
   rr.isSuccess,
   rr.data.bind RefreshData.accessToken)

/-- The original response handed to `checkResponse`: its status/text plus
the result of `response.json()` (none models the parse throwing, which in
the non-401 branch would escape `checkResponse`, there being no try/catch). -/
structure RawResponse (U : Type) where
  status : Int
  statusText : String
  json : Option U
deriving DecidableEq

/-- The fluent `ApiClient.checkResponse` (ApiClient.ts lines 155-171).
On a 401: call `refreshAccessToken` (oracle `rr` is the refresh endpoint's
response); if `!isSuccess || !newToken`, return
`ApiResponse(401, "Unauthorized", undefined)`; otherwise `setToken` and
re-issue the original request via `this.send()` (oracle `retry` — `send`
never consults the refresh endpoint, so the retry performs no further
refresh).  On any other status, parse the body and wrap it.  The last
component counts invocations of the refresh endpoint. -/
def checkResponseFluent {U : Type} (st : FluentState) (resp : RawResponse U)
    (rr : ApiResponse RefreshData) (retry : ApiResponse U) :
    FluentState × Except Unit (ApiResponse U) × Nat :=
  if resp.status == 401 then
    let r := refreshAccessTokenFluent st rr
    match r.2.1, r.2.2 with
    | true, some t =>
        if truthyStr t then (setToken r.1 t, Except.ok retry, 1)
        else (r.1, Except.ok ⟨401, "Unauthorized", none⟩, 1)
    | true, none => (r.1, Except.ok ⟨401, "Unauthorized", none⟩, 1)
    | false, _ => (r.1, Except.ok ⟨401, "Unauthorized", none⟩, 1)
  else
    match resp.json with
    | some d => (st, Except.ok ⟨resp.status, resp.statusText, some d⟩, 0)
    | none => (st, Except.error (), 0)

/-- An exception value in the hook variant's catch branch: `e.status` and
`e.statusText` may or may not be present (a fetch network `TypeError` or a
JSON `SyntaxError` carries neither). -/
structure JsError where
  status : Option Int
  statusText : Option String
deriving DecidableEq

/-- Outcome of the `fetch` + `json()` pair in the hook variant's `request`:
a parsed response, a response whose `json()` throws (`jsonErr`), or the
fetch throwing (`throwErr`). -/
inductive HookOutcome (U : Type) where
  | ok (status : Int) (statusText : String) (json : U)
  | jsonErr
  | throwErr (e : JsError)
deriving DecidableEq

/-- The hook variant's `request` (hook source lines 26-75).  Everything —
parameter handling, the interceptor loop, fetch and parsing — is inside a
single try/catch; the catch returns
`ApiResponse(e.status ?? 500, e.statusText ?? "Internal Server Error!", undefined)`.
`interceptors` lists, in order, `none` for an interceptor that returns
normally and `some e` for one that throws `e`; the first throw aborts the
try block.  No branch produces `Except.error`: nothing escapes. -/
def requestHook {U : Type} (interceptors : List (Option JsError))
    (outcome : HookOutcome U) : Except Unit (ApiResponse U) :=
  match interceptors.findSome? (fun x => x) with
  | some e =>
      Except.ok ⟨e.status.getD 500, e.statusText.getD "Internal Server Error!", none⟩
  | none =>
      match outcome with
      | HookOutcome.throwErr e =>
          Except.ok ⟨e.status.getD 500, e.statusText.getD "Internal Server Error!", none⟩
      | HookOutcome.jsonErr => Except.ok ⟨500, "Internal Server Error!", none⟩
      | HookOutcome.ok s t j => Except.ok ⟨s, t, some j⟩

/-- The external `UserDataController` token store used by the axios
variant. -/
structure TokenStore where
  accessToken : Option String
  refreshToken : Option String
deriving DecidableEq

/-- Outcome of the dedicated refresh request in the axios
`refreshAccessToken` (ApiClient.ts lines 375-418): axios either throws
(transport failure or non-2xx status — both reject) or resolves with a
parsed body. -/
inductive RefreshHttp where
  | throwErr
  | ok (body : RefreshData)
deriving DecidableEq

/-- The axios `ApiClient.refreshAccessToken`: on a resolved response, read
`accessToken` and `refreshToken` from the body; if either is falsy, treat
the refresh as failed and persist nothing; otherwise save both tokens to
the store and return them.  On a throw, persist nothing.  Returns the new
store, the `isSuccess` flag and the token handed back to the interceptor. -/
def refreshAccessTokenAxios (store : TokenStore) (h : RefreshHttp) :
    TokenStore × Bool × Option String :=
  match h with
  | RefreshHttp.throwErr => (store, false, none)
  | RefreshHttp.ok body =>
      match body.accessToken, body.refreshToken with
      | some a, some r =>
          if truthyStr a && truthyStr r then
            (⟨some a, some r⟩, true, some a)
          else (store, false, none)
      | some _, none => (store, false, none)
      | none, _ => (store, false, none)

/-- One attempted axios round trip as seen by the response interceptor
(ApiClient.ts lines 262-322): a resolved (2xx) response, an axios error
carrying a response with some status, an axios error without a response,
or a non-axios throw. -/
inductive AxiosTry (U : Type) where
  | ok (status : Int) (statusText : String) (data : U)
  | errResp (status : Int) (message : String)
  | errNoResp (message : String)
  | errOther
deriving DecidableEq

/-- The axios `send` (ApiClient.ts lines 324-373) together with the
response interceptor installed by `setInterceptors`.  Each element of
`tries` is the outcome of one dispatch through the instance; `refreshes`
supplies the refresh endpoint's successive outcomes.  On a 401 error the
interceptor calls `refreshAccessToken`; on success it retries via
`instance(originalRequest)` — which re-enters the same interceptor, hence
the recursion — and on failure it rethrows, so `send`'s catch produces
`ApiResponse(error.response?.status ?? 500, error.message)`.  The success
interceptor's body normalisation (`handleObject`) is modelled as the
identity on the abstract payload.  Returns the terminal `ApiResponse`, the
final token store, and the number of refresh-endpoint invocations; an
exhausted `tries` list models the transport never answering again and
returns the non-axios-error response of `send`'s catch. -/
def sendAxios {U : Type} : List (AxiosTry U) → List RefreshHttp → TokenStore → Nat →
    ApiResponse U × TokenStore × Nat
  | [], _, store, n => (⟨500, "Internal Server Error", none⟩, store, n)
  | AxiosTry.ok s t d :: _, _, store, n => (⟨s, t, some d⟩, store, n)
  | AxiosTry.errNoResp msg :: _, _, store, n => (⟨500, msg, none⟩, store, n)
  | AxiosTry.errOther :: _, _, store, n =>
      (⟨500, "Internal Server Error", none⟩, store, n)
  | AxiosTry.errResp s msg :: rest, refreshes, store, n =>
      if s == 401 then
        match refreshes with
        | [] => (⟨s, msg, none⟩, store, n + 1)
        | h :: hs =>
            let r := refreshAccessTokenAxios store h
            if r.2.1 then sendAxios rest hs r.1 (n + 1)
            else (⟨s, msg, none⟩, r.1, n + 1)
      else (⟨s, msg, none⟩, store, n)

/-- C1: evaluation of the axios variant at the scenario the claim rules
out.  The original request returns 401, the refresh succeeds (rotating the
stored tokens), and the retried request returns 401 again.  Because the
retry `instance(originalRequest)` re-enters the same response interceptor,
the second 401 triggers a second refresh-endpoint invocation (here
failing, so the 401 is finally surfaced): the refresh call count is 2, not
the 1 required by the claim — and with further 401s and successful
refreshes the cycle repeats unboundedly.  (The fluent variant's
`checkResponse` does satisfy the claim: its retry goes through `send`,
which never consults the refresh endpoint.) -/
theorem c1_axios_second_refresh :
    sendAxios
        ([AxiosTry.errResp 401 "Request failed with status code 401",
          AxiosTry.errResp 401 "Request failed with status code 401"] :
          List (AxiosTry Unit))
        [RefreshHttp.ok ⟨some "newAccess", some "newRefresh"⟩, RefreshHttp.throwErr]
        ⟨some "oldAccess", some "oldRefresh"⟩ 0 =
      (⟨401, "Request failed with status code 401", none⟩,
       ⟨some "newAccess", some "newRefresh"⟩, 2) := by
  decide

/-- C4 counterexample: a failed refresh does not leave the stored access
token unchanged.  With the fluent client's token set to "old" and the
refresh call transport-failing (its sub-request yields
`ApiResponse(500, "Internal Server Error", undefined)`), `checkResponse`
does return `ApiResponse(401, "Unauthorized", undefined)`, but
`refreshAccessToken` has already executed
`this.token = response.data?.accessToken`, clearing the stored token. -/
theorem c4_counterexample :
    (checkResponseFluent ⟨some "old", some "Bearer old"⟩
        (⟨401, "Unauthorized", none⟩ : RawResponse Unit)
        ⟨500, "Internal Server Error", none⟩ ⟨200, "OK", some ()⟩).1.token ≠
      some "old" := by
  decide

/-- C4 amended: for every refresh attempt the code treats as failed
(fluent variant: the guard `!isSuccess || !newToken`, i.e. non-success
status — which covers transport failure, surfaced as a 500 — or an absent
or empty access token; axios variant: a throw, covering transport failure
and non-2xx status, or either token of the body falsy), exactly one
refresh invocation occurs and nothing new is persisted to the external
token store, the fluent variant returning
`NormalizedResponse(401, "Unauthorized", absent)` — however, the fluent
variant's stored access-token field is overwritten with the refresh
response's optional access token (so it is cleared, not left unchanged,
when that token is absent), while its Authorization header keeps the old
bearer value. -/
theorem c4_amended_failed_refresh :
    (∀ (U : Type) (st : FluentState) (txt : String) (body : Option U)
        (rr : ApiResponse RefreshData) (retry : ApiResponse U),
      (rr.isSuccess &&
        (((rr.data.bind RefreshData.accessToken).map truthyStr).getD false)) = false →
      checkResponseFluent st ⟨401, txt, body⟩ rr retry =
        ({ st with token := rr.data.bind RefreshData.accessToken },
         Except.ok ⟨401, "Unauthorized", none⟩, 1)) ∧
    (∀ (store : TokenStore) (h : RefreshHttp),
      (refreshAccessTokenAxios store h).2.1 = false →
      (refreshAccessTokenAxios store h).1 = store) := by
  constructor
  · intro U st txt body rr retry hfail
    unfold checkResponseFluent refreshAccessTokenFluent
    cases hS : rr.isSuccess with
    | false => cases hT : rr.data.bind RefreshData.accessToken <;> simp [hS, hT]
    | true =>
        cases hT : rr.data.bind RefreshData.accessToken with
        | none => simp [hS, hT]
        | some t =>
            rw [hS, hT] at hfail
            have ht : truthyStr t = false := by simpa using hfail
            simp [hS, hT, ht]
  · intro store h hfail
    cases h with
    | throwErr => rfl
    | ok body =>
        cases ha : body.accessToken with
        | none => simp [refreshAccessTokenAxios, ha]
        | some a =>
            cases hr : body.refreshToken with
            | none => simp [refreshAccessTokenAxios, ha, hr]
            | some r =>
                by_cases htr : (truthyStr a && truthyStr r) = true
                · have h2 : (refreshAccessTokenAxios store (RefreshHttp.ok body)).2.1 = true := by
                    simp [refreshAccessTokenAxios, ha, hr, htr]
                  rw [hfail] at h2
                  exact Bool.noConfusion h2
                · simp [refreshAccessTokenAxios, ha, hr, htr]

/-- Witness for C4 at concrete inputs: fluent state with token "old",
refresh sub-request failing with a 500, and the axios refresh throwing. -/
theorem c4_amended_failed_refresh_witness :
    checkResponseFluent ⟨some "old", some "Bearer old"⟩
        (⟨401, "Unauthorized", none⟩ : RawResponse Unit)
        ⟨500, "Internal Server Error", none⟩ ⟨200, "OK", some ()⟩ =
      (⟨none, some "Bearer old"⟩, Except.ok ⟨401, "Unauthorized", none⟩, 1) ∧
    (refreshAccessTokenAxios ⟨some "a", some "r"⟩ RefreshHttp.throwErr).1 =
      ⟨some "a", some "r"⟩ :=
  ⟨c4_amended_failed_refresh.1 Unit ⟨some "old", some "Bearer old"⟩ "Unauthorized"
      none ⟨500, "Internal Server Error", none⟩ ⟨200, "OK", some ()⟩ (by decide),
   c4_amended_failed_refresh.2 ⟨some "a", some "r"⟩ RefreshHttp.throwErr (by decide)⟩

/-- C5 counterexample: in the hook variant, a transport-level failure (a
fetch `TypeError`, carrying neither status nor statusText) yields
`ApiResponse(500, "Internal Server Error!", undefined)` — the fallback
message has a trailing exclamation mark, so the result is not exactly
`NormalizedResponse(500, "Internal Server Error", absent)` as claimed. -/
theorem c5_counterexample :
    requestHook ([] : List (Option JsError))
        (HookOutcome.throwErr ⟨none, none⟩ : HookOutcome Unit) =
      Except.ok ⟨500, "Internal Server Error!", none⟩ ∧
    ("Internal Server Error!" : String) ≠ "Internal Server Error" :=
  ⟨rfl, by decide⟩

/-- C5 amended: on a transport-level failure (no response received) every
variant terminates immediately with an absent payload and no retry and no
refresh attempt; the status is 500 and the statusText is
"Internal Server Error" in the fluent variant, "Internal Server Error!"
in the hook variant (whose fallbacks apply because the error carries no
status or statusText), and the transport error's own message in the axios
variant. -/
theorem c5_amended_transport_failure :
    (∀ (U : Type) (interceptors : List Bool),
      sendFluent interceptors (FetchOutcome.netErr : FetchOutcome U) =
        Except.ok ⟨500, "Internal Server Error", none⟩) ∧
    (∀ (U : Type),
      requestHook ([] : List (Option JsError))
          (HookOutcome.throwErr ⟨none, none⟩ : HookOutcome U) =
        Except.ok ⟨500, "Internal Server Error!", none⟩) ∧
    (∀ (U : Type) (msg : String) (rest : List (AxiosTry U))
        (refreshes : List RefreshHttp) (store : TokenStore) (n : Nat),
      sendAxios (AxiosTry.errNoResp msg :: rest) refreshes store n =
        (⟨500, msg, none⟩, store, n)) := by
  refine ⟨?_, ?_, ?_⟩
  · intro U ints
    unfold sendFluent
    split <;> rfl
  · intro U; rfl
  · intro U msg rest refreshes store n; rfl

/-- C7 counterexample: with a registered interceptor that throws, the
fluent `send` call does not propagate the exception — the surrounding
try/catch swallows it and the call returns the normal
`ApiResponse(500, "Internal Server Error", undefined)` even though the
transport would have answered 200. -/
theorem c7_counterexample :
    sendFluent [true] (FetchOutcome.ok 200 "OK" (some ()) : FetchOutcome Unit) =
      Except.ok ⟨500, "Internal Server Error", none⟩ := rfl

/-- C7 amended: an exception thrown by an interceptor before dispatch does
not propagate out of the call; the enclosing try/catch converts it into a
`NormalizedResponse` — `(500, "Internal Server Error", absent)` in the
fluent variant and `(e.status ?? 500, e.statusText ?? "Internal Server
Error!", absent)` in the hook variant.  (The axios variant never invokes
the callback registered through its `addInterceptor` at all.) -/
theorem c7_amended_interceptor_swallowed :
    (∀ (U : Type) (interceptors : List Bool) (outcome : FetchOutcome U),
      interceptors.any (fun b => b) = true →
      sendFluent interceptors outcome =
        Except.ok ⟨500, "Internal Server Error", none⟩) ∧
    (∀ (U : Type) (e : JsError) (rest : List (Option JsError))
        (outcome : HookOutcome U),
      requestHook (some e :: rest) outcome =
        Except.ok ⟨e.status.getD 500, e.statusText.getD "Internal Server Error!",
          none⟩) := by
  constructor
  · intro U ints outcome h
    simp [sendFluent, h]
  · intro U e rest outcome
    rfl

/-- Witness for C7: a single throwing interceptor in the fluent variant,
and a hook interceptor throwing an error that carries its own status. -/
theorem c7_amended_interceptor_swallowed_witness :
    sendFluent [true] (FetchOutcome.netErr : FetchOutcome Unit) =
      Except.ok ⟨500, "Internal Server Error", none⟩ ∧
    requestHook [some ⟨some 418, some "I am a teapot"⟩]
        (HookOutcome.ok 200 "OK" () : HookOutcome Unit) =
      Except.ok ⟨418, "I am a teapot", none⟩ :=
  ⟨c7_amended_interceptor_swallowed.1 Unit [true] FetchOutcome.netErr (by decide),
   c7_amended_interceptor_swallowed.2 Unit ⟨some 418, some "I am a teapot"⟩ []
     (HookOutcome.ok 200 "OK" ())⟩
